import Mathlib

/-!
Shallow embedding of the scalar spring integrator (`Spring` class) of the
repository: state, constructor, `Step`, `CanSleep`, and the parameter
setters. Numbers are modelled by the reals; the transcendental helpers
(`Math.exp`, `Math.sin`, `Math.cos`, `Math.sqrt`) are `Real.exp`,
`Real.sin`, `Real.cos`, `Real.sqrt`. Exceptions (`throw`) are modelled by
returning the error alongside the (unchanged) state.

The two sleep-limit constants are defined through JavaScript's `^`
operator, which is the bitwise XOR on 32-bit integers, not exponentiation:
the source writes `(1/3840)^2` and `1e-2^2`, which evaluate to `0 ^ 2 = 2`
after ToInt32 truncation. The embedding reproduces that semantics exactly
(`jsXor` below).
-/

/-- JavaScript ToInt32 truncation step: truncate a rational toward zero
(`Math.trunc`), as in the ToInt32 abstract operation. -/
def jsTrunc (q : ℚ) : ℤ :=
  if 0 ≤ q then ⌊q⌋ else -⌊-q⌋

/-- ToUint32: the truncated value reduced mod 2^32 into `[0, 2^32)`. -/
def jsToUint32 (q : ℚ) : ℕ :=
  ((jsTrunc q) % (2 ^ 32 : ℤ)).toNat

/-- Reinterpret a 32-bit unsigned value as a signed 32-bit integer. -/
def jsAsInt32 (n : ℕ) : ℤ :=
  if n < 2 ^ 31 then (n : ℤ) else (n : ℤ) - 2 ^ 32

/-- JavaScript's binary `^` (bitwise XOR) on numbers: both operands go
through ToInt32/ToUint32, the bits are XORed, and the result is read back
as a signed 32-bit integer. -/
def jsXor (a b : ℚ) : ℤ :=
  jsAsInt32 (Nat.xor (jsToUint32 a) (jsToUint32 b))

/-- `const SLEEP_OFFSET_SQ_LIMIT = (1/3840)^2` — `^` is XOR, so this is
`ToInt32(1/3840) ^ 2 = 0 ^ 2 = 2`, not `(1/3840)²`. -/
def SLEEP_OFFSET_SQ_LIMIT : ℤ := jsXor (1 / 3840) 2

/-- `const SLEEP_VELOCITY_SQ_LIMIT = 1e-2^2` — `^` is XOR, so this is
`ToInt32(0.01) ^ 2 = 0 ^ 2 = 2`, not `1e-4`. -/
def SLEEP_VELOCITY_SQ_LIMIT : ℤ := jsXor (1e-2) 2

/-- `const EPS = 1e-5`. -/
def EPS : ℝ := 1e-5

/-- `const tau = pi * 2`. -/
noncomputable def tau : ℝ := Real.pi * 2

/-- The five private fields of the `Spring` class. -/
structure SpringState where
  DampingRatio : ℝ
  Frequency : ℝ
  Goal : ℝ
  Position : ℝ
  Velocity : ℝ

/-- The single error kind: `throw new Error("Spring will not converge")`,
called `InvalidParameters` by the specification. -/
inductive SpringError where
  | invalidParameters
deriving Repr, DecidableEq

namespace Spring

/-- The constructor: validates `frequency * dampingRatio < 0` before any
field is stored, then initializes the five fields (velocity to `0`). -/
noncomputable def new (startPosition frequency dampingRatio : ℝ)
    (goal : ℝ := startPosition) : Except SpringError SpringState :=
  if frequency * dampingRatio < 0 then
    .error .invalidParameters
  else
    .ok { DampingRatio := dampingRatio, Frequency := frequency, Goal := goal
          Position := startPosition, Velocity := 0 }

/-- `CanSleep()`: returns `false` iff the squared velocity exceeds
`SLEEP_VELOCITY_SQ_LIMIT` or the squared offset exceeds
`SLEEP_OFFSET_SQ_LIMIT` (both of which evaluate to `2`). -/
def CanSleep (s : SpringState) : Prop :=
  ¬ (s.Velocity ^ 2 > (SLEEP_VELOCITY_SQ_LIMIT : ℝ)
      ∨ (s.Goal - s.Position) ^ 2 > (SLEEP_OFFSET_SQ_LIMIT : ℝ))

/-- `GetGoal()`. -/
def GetGoal (s : SpringState) : ℝ := s.Goal

/-- `SetGoal(goal)`: unconditional. -/
def SetGoal (s : SpringState) (goal : ℝ) : SpringState :=
  { s with Goal := goal }

/-- `SetDampingRatio(dampingRatio)`: throws (state untouched, the `throw`
precedes the assignment) when `this.Frequency * dampingRatio < 0`,
otherwise assigns the field. The pair is (object state after the call,
error raised if any). -/
noncomputable def SetDampingRatio (s : SpringState) (dampingRatio : ℝ) :
    SpringState × Option SpringError :=
  if s.Frequency * dampingRatio < 0 then
    (s, some .invalidParameters)
  else
    ({ s with DampingRatio := dampingRatio }, none)

/-- `SetFrequency(frequency)`: throws (state untouched) when
`frequency * this.DampingRatio < 0`, otherwise assigns the field. -/
noncomputable def SetFrequency (s : SpringState) (frequency : ℝ) :
    SpringState × Option SpringError :=
  if frequency * s.DampingRatio < 0 then
    (s, some .invalidParameters)
  else
    ({ s with Frequency := frequency }, none)

/-- The underdamped ratio `z`: `j / c` when `c > EPS`, otherwise the
5th-order Maclaurin fallback in `frequencyStep`, exactly as guarded and
grouped in the source (`cSquared = c ** 2`). Here
`j = sin(c * frequencyStep)`. -/
noncomputable def springZ (c frequencyStep : ℝ) : ℝ :=
  if c > EPS then
    Real.sin (c * frequencyStep) / c
  else
    let cSquared := c ^ 2
    frequencyStep
      + ((frequencyStep ^ 2 * cSquared * cSquared / 20 - cSquared) * frequencyStep ^ 3) / 6

/-- The underdamped ratio `y`: `j / cFrequency` when
`cFrequency = frequency * c > EPS`, otherwise the analogous Maclaurin
fallback in `deltaTime`, exactly as guarded and grouped in the source. -/
noncomputable def springY (c frequency deltaTime : ℝ) : ℝ :=
  let cFrequency := frequency * c
  if cFrequency > EPS then
    Real.sin (c * (frequency * deltaTime)) / cFrequency
  else
    let cFrequencySquared := cFrequency ^ 2
    deltaTime
      + ((deltaTime ^ 2 * cFrequencySquared * cFrequencySquared / 20 - cFrequencySquared)
          * deltaTime ^ 3) / 6

/-- `Step(deltaTime)`: advances the closed-form damped-oscillator solution
by `deltaTime`, branching on the damping ratio (critical / under / over).
Returns the updated object together with the returned `newPosition`. -/
noncomputable def Step (s : SpringState) (deltaTime : ℝ) : SpringState × ℝ :=
  let dampingRatio := s.DampingRatio
  let frequency := s.Frequency * tau
  let goal := s.Goal
  let position := s.Position
  let velocity := s.Velocity
  if dampingRatio = 1 then
    -- Critically damped
    let q := Real.exp (-frequency * deltaTime)
    let w := deltaTime * q
    let wScaledFrequency := w * frequency
    let c0 := q + wScaledFrequency
    let c2 := q - wScaledFrequency
    let c3 := w * frequency ^ 2
    let goalDistance := position - goal
    let newPosition := goalDistance * c0 + velocity * w + goal
    let newVelocity := velocity * c2 - goalDistance * c3
    ({ s with Position := newPosition, Velocity := newVelocity }, newPosition)
  else if dampingRatio < 1 then
    -- Underdamped
    let frequencyStep := frequency * deltaTime
    let q := Real.exp (-dampingRatio * frequencyStep)
    let c := Real.sqrt (1 - dampingRatio ^ 2)
    let cFrequencyStep := c * frequencyStep
    let i := Real.cos cFrequencyStep
    let z := springZ c frequencyStep
    let y := springY c frequency deltaTime
    let goalDistance := position - goal
    let newPosition := (goalDistance * (i + z * dampingRatio) + velocity * y) * q + goal
    let newVelocity := (velocity * (i - z * dampingRatio) - goalDistance * (z * frequency)) * q
    ({ s with Position := newPosition, Velocity := newVelocity }, newPosition)
  else
    -- Overdamped
    let c := Real.sqrt (dampingRatio ^ 2 - 1)
    let r1 := -frequency * (dampingRatio - c)
    let r2 := -frequency * (dampingRatio + c)
    let ec1 := Real.exp (r1 * deltaTime)
    let ec2 := Real.exp (r2 * deltaTime)
    let goalDistance := position - goal
    let co2 := (velocity - goalDistance * r1) / (2 * frequency * c)
    let co1 := ec1 * (goalDistance - co2)
    let coEc2 := co2 * ec2
    let newPosition := co1 + coEc2 + goal
    let newVelocity := co1 * r1 + coEc2 * r2
    ({ s with Position := newPosition, Velocity := newVelocity }, newPosition)

end Spring

/-- The sleep predicate as the specification words it: `velocity² ≤ V_SLEEP²`
and `(goal−position)² ≤ X_SLEEP²` with `V_SLEEP² = 1e-4` and
`X_SLEEP² = (1/3840)²`. Stated for comparison with `Spring.CanSleep`,
which is translated from the source. -/
def canSleepSpec (s : SpringState) : Prop :=
  s.Velocity ^ 2 ≤ 1e-4 ∧ (s.Goal - s.Position) ^ 2 ≤ (1 / 3840) ^ 2

theorem sleep_offset_limit_eval : SLEEP_OFFSET_SQ_LIMIT = 2 := by
  norm_num [SLEEP_OFFSET_SQ_LIMIT, jsXor, jsToUint32, jsTrunc, jsAsInt32]
  decide

theorem sleep_velocity_limit_eval : SLEEP_VELOCITY_SQ_LIMIT = 2 := by
  norm_num [SLEEP_VELOCITY_SQ_LIMIT, jsXor, jsToUint32, jsTrunc, jsAsInt32]
  decide

/-- C1: the claim states `CanSleep()` is true iff `velocity² ≤ 1e-4` and
`(goal−position)² ≤ (1/3840)²`. It is not: the source's `^` is bitwise XOR,
so both limits evaluate to `2`, and at the state with velocity `1` and
position equal to goal the code's `CanSleep` holds although `1² > 1e-4`. -/
theorem canSleep_limits_are_xor_bug :
    Spring.CanSleep ⟨1, 1, 0, 0, 1⟩ ∧ ¬ canSleepSpec ⟨1, 1, 0, 0, 1⟩ := by
  constructor
  · simp only [Spring.CanSleep, sleep_offset_limit_eval, sleep_velocity_limit_eval]
    push_cast
    norm_num
  · simp only [canSleepSpec]
    norm_num

/-- C3: the constructor errors iff `frequency·dampingRatio < 0` and
otherwise stores the five fields (velocity `0`); `SetDampingRatio` errors
iff the stored frequency times the new damping ratio is negative, and
otherwise assigns only that field; `SetFrequency` symmetrically. -/
theorem convergence_validation (p f d g dr fr : ℝ) (s : SpringState) :
    (Spring.new p f d g = .error .invalidParameters ↔ f * d < 0)
    ∧ (0 ≤ f * d → Spring.new p f d g = .ok ⟨d, f, g, p, 0⟩)
    ∧ ((Spring.SetDampingRatio s dr).2 = some .invalidParameters ↔ s.Frequency * dr < 0)
    ∧ (0 ≤ s.Frequency * dr →
        Spring.SetDampingRatio s dr = ({ s with DampingRatio := dr }, none))
    ∧ ((Spring.SetFrequency s fr).2 = some .invalidParameters ↔ fr * s.DampingRatio < 0)
    ∧ (0 ≤ fr * s.DampingRatio →
        Spring.SetFrequency s fr = ({ s with Frequency := fr }, none)) := by
  refine ⟨?_, ?_, ?_, ?_, ?_, ?_⟩ <;>
    simp only [Spring.new, Spring.SetDampingRatio, Spring.SetFrequency] <;>
    split_ifs with h <;>
    simp_all

theorem convergence_validation_witness :
    Spring.new 0 1 (-1) 0 = .error .invalidParameters
    ∧ Spring.new 0 1 1 0 = .ok ⟨1, 1, 0, 0, 0⟩ := by
  refine ⟨(convergence_validation 0 1 (-1) 0 0 0 ⟨1, 1, 0, 0, 0⟩).1.2 (by norm_num),
    (convergence_validation 0 1 1 0 0 0 ⟨1, 1, 0, 0, 0⟩).2.1 (by norm_num)⟩

/-- C10: whenever `SetDampingRatio` or `SetFrequency` raises
`InvalidParameters`, the spring's state is exactly what it was before the
call (the `throw` precedes the field assignment). -/
theorem setters_atomic_on_failure (s : SpringState) (dr fr : ℝ) :
    ((Spring.SetDampingRatio s dr).2 = some .invalidParameters →
      (Spring.SetDampingRatio s dr).1 = s)
    ∧ ((Spring.SetFrequency s fr).2 = some .invalidParameters →
      (Spring.SetFrequency s fr).1 = s) := by
  constructor <;>
    · intro h
      simp only [Spring.SetDampingRatio, Spring.SetFrequency] at h ⊢
      split_ifs at h ⊢
      rfl

theorem setters_atomic_on_failure_witness :
    (Spring.SetDampingRatio ⟨1, 1, 0, 0, 0⟩ (-1)).1 = ⟨1, 1, 0, 0, 0⟩
    ∧ (Spring.SetFrequency ⟨1, 1, 0, 0, 0⟩ (-1)).1 = ⟨1, 1, 0, 0, 0⟩ := by
  have h := setters_atomic_on_failure ⟨1, 1, 0, 0, 0⟩ (-1) (-1)
  refine ⟨h.1 ?_, h.2 ?_⟩ <;>
    · simp only [Spring.SetDampingRatio, Spring.SetFrequency]
      norm_num

/-- C8: `Step` writes only `Position` and `Velocity`; the `Frequency`,
`DampingRatio` and `Goal` fields are unchanged in every branch. -/
theorem step_frame (s : SpringState) (dt : ℝ) :
    (Spring.Step s dt).1.Frequency = s.Frequency
    ∧ (Spring.Step s dt).1.DampingRatio = s.DampingRatio
    ∧ (Spring.Step s dt).1.Goal = s.Goal := by
  simp only [Spring.Step]
  split_ifs <;> exact ⟨rfl, rfl, rfl⟩

/-- C9: `Step` is deterministic — two springs whose five fields agree give
the same returned value and the same final state for the same `deltaTime`. -/
theorem step_deterministic (s1 s2 : SpringState) (dt : ℝ)
    (h1 : s1.Position = s2.Position) (h2 : s1.Velocity = s2.Velocity)
    (h3 : s1.Frequency = s2.Frequency) (h4 : s1.DampingRatio = s2.DampingRatio)
    (h5 : s1.Goal = s2.Goal) :
    Spring.Step s1 dt = Spring.Step s2 dt := by
  obtain ⟨d1, f1, g1, p1, v1⟩ := s1
  obtain ⟨d2, f2, g2, p2, v2⟩ := s2
  simp only at h1 h2 h3 h4 h5
  subst h1 h2 h3 h4 h5
  rfl

theorem step_deterministic_witness :
    Spring.Step ⟨1, 1, 0, 0, 0⟩ 1 = Spring.Step ⟨1, 1, 0, 0, 0⟩ 1 :=
  step_deterministic ⟨1, 1, 0, 0, 0⟩ ⟨1, 1, 0, 0, 0⟩ 1 rfl rfl rfl rfl rfl

/-- C4: at equilibrium (`position = goal`, `velocity = 0`), `Step` returns
the goal and leaves position at the goal and velocity at zero, whatever the
branch taken by the damping ratio. -/
theorem step_equilibrium (s : SpringState) (dt : ℝ)
    (hval : 0 ≤ s.Frequency * s.DampingRatio)
    (hp : s.Position = s.Goal) (hv : s.Velocity = 0) (hdt : 0 ≤ dt) :
    (Spring.Step s dt).2 = s.Goal
    ∧ (Spring.Step s dt).1.Position = s.Goal
    ∧ (Spring.Step s dt).1.Velocity = 0 := by
  simp only [Spring.Step]
  split_ifs <;> simp [hp, hv]

theorem step_equilibrium_witness :
    (Spring.Step ⟨1, 4, 0, 0, 0⟩ 1).2 = (⟨1, 4, 0, 0, 0⟩ : SpringState).Goal
    ∧ (Spring.Step ⟨1, 4, 0, 0, 0⟩ 1).1.Position = (⟨1, 4, 0, 0, 0⟩ : SpringState).Goal
    ∧ (Spring.Step ⟨1, 4, 0, 0, 0⟩ 1).1.Velocity = 0 :=
  step_equilibrium ⟨1, 4, 0, 0, 0⟩ 1 (by norm_num) rfl rfl (by norm_num)

/-- C7: for `dampingRatio = 1`, with `f = frequency·2π`, `q = e^{−f·dt}`,
`w = dt·q`, the new position is `(position−goal)·(q+w·f) + velocity·w + goal`,
the new velocity is `velocity·(q−w·f) − (position−goal)·w·f²`, and the new
position is what the call returns. -/
theorem step_critically_damped (s : SpringState) (dt f q w : ℝ)
    (hd : s.DampingRatio = 1)
    (hf : f = s.Frequency * tau)
    (hq : q = Real.exp (-f * dt))
    (hw : w = dt * q) :
    (Spring.Step s dt).1.Position
        = (s.Position - s.Goal) * (q + w * f) + s.Velocity * w + s.Goal
    ∧ (Spring.Step s dt).1.Velocity
        = s.Velocity * (q - w * f) - (s.Position - s.Goal) * (w * f ^ 2)
    ∧ (Spring.Step s dt).2 = (Spring.Step s dt).1.Position := by
  subst hf hq hw
  simp only [Spring.Step, hd, if_pos]
  norm_num

theorem step_critically_damped_witness :
    (Spring.Step ⟨1, 1, 2, 3, 5⟩ 1).1.Position
        = ((⟨1, 1, 2, 3, 5⟩ : SpringState).Position - (⟨1, 1, 2, 3, 5⟩ : SpringState).Goal)
            * (Real.exp (-(1 * tau) * 1) + 1 * Real.exp (-(1 * tau) * 1) * (1 * tau))
          + (⟨1, 1, 2, 3, 5⟩ : SpringState).Velocity * (1 * Real.exp (-(1 * tau) * 1))
          + (⟨1, 1, 2, 3, 5⟩ : SpringState).Goal
    ∧ (Spring.Step ⟨1, 1, 2, 3, 5⟩ 1).1.Velocity
        = (⟨1, 1, 2, 3, 5⟩ : SpringState).Velocity
            * (Real.exp (-(1 * tau) * 1) - 1 * Real.exp (-(1 * tau) * 1) * (1 * tau))
          - ((⟨1, 1, 2, 3, 5⟩ : SpringState).Position - (⟨1, 1, 2, 3, 5⟩ : SpringState).Goal)
            * (1 * Real.exp (-(1 * tau) * 1) * (1 * tau) ^ 2)
    ∧ (Spring.Step ⟨1, 1, 2, 3, 5⟩ 1).2 = (Spring.Step ⟨1, 1, 2, 3, 5⟩ 1).1.Position :=
  step_critically_damped ⟨1, 1, 2, 3, 5⟩ 1 (1 * tau) (Real.exp (-(1 * tau) * 1))
    (1 * Real.exp (-(1 * tau) * 1)) rfl rfl rfl rfl

/-- C6: in the underdamped branch, with `a = f·dt` and `c = sqrt(1−d²)`, the
ratio `z` is `sin(c·a)/c` when `c > 1e-5` and the 5th-order Maclaurin form
otherwise, and `y` is `sin(c·a)/(f·c)` when `f·c > 1e-5` and the analogous
expansion in `dt` otherwise. -/
theorem underdamped_ratio_fallbacks (d f dt c a : ℝ)
    (hc : c = Real.sqrt (1 - d ^ 2)) (ha : a = f * dt) :
    (c > EPS → Spring.springZ c a = Real.sin (c * a) / c)
    ∧ (c ≤ EPS → Spring.springZ c a = a + ((a ^ 2 * c ^ 4 / 20 - c ^ 2) * a ^ 3) / 6)
    ∧ (f * c > EPS → Spring.springY c f dt = Real.sin (c * a) / (f * c))
    ∧ (f * c ≤ EPS → Spring.springY c f dt
        = dt + ((dt ^ 2 * (f * c) ^ 4 / 20 - (f * c) ^ 2) * dt ^ 3) / 6) := by
  subst ha
  refine ⟨?_, ?_, ?_, ?_⟩ <;> intro h <;>
    simp only [Spring.springZ, Spring.springY]
  · rw [if_pos h]
  · rw [if_neg (not_lt.mpr h)]
    ring
  · rw [if_pos (by linarith [h] : f * c > EPS)]
  · rw [if_neg (not_lt.mpr (by linarith [h]))]
    ring

theorem underdamped_ratio_fallbacks_witness :
    (Real.sqrt (1 - (0:ℝ) ^ 2) > EPS →
      Spring.springZ (Real.sqrt (1 - (0:ℝ) ^ 2)) (1 * 1)
        = Real.sin (Real.sqrt (1 - (0:ℝ) ^ 2) * (1 * 1)) / Real.sqrt (1 - (0:ℝ) ^ 2))
    ∧ (Real.sqrt (1 - (0:ℝ) ^ 2) ≤ EPS →
      Spring.springZ (Real.sqrt (1 - (0:ℝ) ^ 2)) (1 * 1)
        = 1 * 1 + ((1 * 1) ^ 2 * Real.sqrt (1 - (0:ℝ) ^ 2) ^ 4 / 20
            - Real.sqrt (1 - (0:ℝ) ^ 2) ^ 2) * (1 * 1) ^ 3 / 6)
    ∧ (1 * Real.sqrt (1 - (0:ℝ) ^ 2) > EPS →
      Spring.springY (Real.sqrt (1 - (0:ℝ) ^ 2)) 1 1
        = Real.sin (Real.sqrt (1 - (0:ℝ) ^ 2) * (1 * 1)) / (1 * Real.sqrt (1 - (0:ℝ) ^ 2)))
    ∧ (1 * Real.sqrt (1 - (0:ℝ) ^ 2) ≤ EPS →
      Spring.springY (Real.sqrt (1 - (0:ℝ) ^ 2)) 1 1
        = 1 + (1 ^ 2 * (1 * Real.sqrt (1 - (0:ℝ) ^ 2)) ^ 4 / 20
            - (1 * Real.sqrt (1 - (0:ℝ) ^ 2)) ^ 2) * 1 ^ 3 / 6) :=
  underdamped_ratio_fallbacks 0 1 1 (Real.sqrt (1 - (0:ℝ) ^ 2)) (1 * 1) rfl rfl

/-- C5: `Step(0)` does not leave the velocity unchanged in the overdamped
branch: at damping ratio `2`, frequency `1`, position `1`, goal `0`,
velocity `0`, the zero-time step sets the velocity to `−2·(2π)·(2−√3)`
(≈ −3.37), which is more than `1e-9` away from the original `0`. The
overdamped coefficient `co2 = (velocity − offset·r1)/(2·f·c)` pairs the
roots the wrong way round (`r2 − r1 = −2·f·c`, not `+2·f·c`), so the branch
does not satisfy the initial conditions `X(0)=p0, X'(0)=v0` that the
`Step` comment and the specification state. -/
theorem step_zero_overdamped_velocity_bug :
    (Spring.Step ⟨2, 1, 0, 1, 0⟩ 0).1.Velocity = -(2 * tau) * (2 - Real.sqrt 3)
    ∧ 1e-9 < |(Spring.Step ⟨2, 1, 0, 1, 0⟩ 0).1.Velocity
        - (⟨2, 1, 0, 1, 0⟩ : SpringState).Velocity| := by
  have h3pos : (0:ℝ) < Real.sqrt 3 := Real.sqrt_pos.mpr (by norm_num)
  have h3lt : Real.sqrt 3 < 1.8 := by
    rw [show (1.8:ℝ) = Real.sqrt 3.24 by
      rw [show (3.24:ℝ) = 1.8 ^ 2 by norm_num, Real.sqrt_sq (by norm_num)]]
    exact Real.sqrt_lt_sqrt (by norm_num) (by norm_num)
  have hval : (Spring.Step ⟨2, 1, 0, 1, 0⟩ 0).1.Velocity
      = -(2 * tau) * (2 - Real.sqrt 3) := by
    simp only [Spring.Step]
    norm_num [mul_zero, Real.exp_zero, tau]
    have hpi : Real.pi ≠ 0 := Real.pi_ne_zero
    have h3ne : Real.sqrt 3 ≠ 0 := ne_of_gt h3pos
    field_simp
    ring
  refine ⟨hval, ?_⟩
  have hv0 : (⟨2, 1, 0, 1, 0⟩ : SpringState).Velocity = 0 := rfl
  rw [hval, hv0, sub_zero, abs_of_neg (by simp only [tau]; nlinarith [Real.pi_gt_three])]
  simp only [tau]
  nlinarith [Real.pi_gt_three]
